import Mathlib

/-! IndoorMapEditor: the main window's document, recent-file and tool glue.

A shallow embedding of `src/mainwindow.cpp`.  The window is a record of its
member variables together with the objects it reaches through pointers (the
one `DocumentView`, the model installed in the tree view, the process-wide
`ToolManager`) and a log of the calls it makes into the toolkit and into
collaborators.  Every slot is a pure function on that record; what the user
answers in a dialog is an explicit input.

Signals are delivered as separate events: `buildingChanged` reaching the
`rebuildTreeView` slot is the event `Event.rebuildTreeView`, and an edit made
by the active tool is the event `Event.edit`.
-/

namespace IndoorMapEditor

/-! ## Collaborators that are declared outside `mainwindow.cpp` -/

/-- Modelled from the spec: `core/mapentity.h` is missing; a MapEntity is a
node of the scene tree with an identity and owned children. -/
inductive MapEntity where
  | node (id : Nat) (children : List MapEntity)

/-- Modelled from the spec: `core/scene.h` is missing; a Scene owns a root
entity, returned by `root()`. -/
structure Scene where
  root : MapEntity

/-- Modelled from the spec: `gui/documentview.h` is missing; a Document owns
one Scene and has a modified flag and a selectable flag. -/
structure DocumentView where
  m_scene : Scene
  m_isModified : Bool
  m_selectable : Bool

/-- Modelled from the spec: `DocumentView::scene()`. -/
def DocumentView.scene (d : DocumentView) : Scene := d.m_scene

/-- Modelled from the spec: `DocumentView::isModified()`. -/
def DocumentView.isModified (d : DocumentView) : Bool := d.m_isModified

/-- Modelled from the spec: `DocumentView::setModified(bool)`. -/
def DocumentView.setModified (d : DocumentView) (b : Bool) : DocumentView :=
  { d with m_isModified := b }

/-- Modelled from the spec: `DocumentView::setSelectable(bool)`. -/
def DocumentView.setSelectable (d : DocumentView) (b : Bool) : DocumentView :=
  { d with m_selectable := b }

/-- Modelled from the spec: a node of the tree projection, a read-only mirror
of one MapEntity that keeps only the entity's identifier. -/
inductive SceneItem where
  | node (entity : Nat) (children : List SceneItem)

mutual
/-- Modelled from the spec: the projection of one entity mirrors its shape. -/
def SceneItem.mirror : MapEntity → SceneItem
  | .node i cs => .node i (SceneItem.mirrorAll cs)
/-- Modelled from the spec: the projection of a list of children. -/
def SceneItem.mirrorAll : List MapEntity → List SceneItem
  | [] => []
  | c :: cs => SceneItem.mirror c :: SceneItem.mirrorAll cs
end

/-- Modelled from the spec: `gui/scenemodel.h` is missing; a SceneModel is the
projection built from the root entity it is constructed with. -/
structure SceneModel where
  rootItem : SceneItem

/-- Modelled from the spec: the constructor `SceneModel(MapEntity *root)`
builds a fresh tree mirroring the current shape of `root`. -/
def SceneModel.new (root : MapEntity) : SceneModel :=
  { rootItem := SceneItem.mirror root }

/-- The three tool classes instantiated by the window. -/
inductive ToolKind where
  | SelectTool
  | PolygonTool
  | PubPointTool
deriving DecidableEq, Repr

/-- A tool object on the heap: `addr` is its identity (the n-th object made by
`new` has address n), `m_doc` the non-owning pointer to its target document. -/
structure AbstractTool where
  addr : Nat
  kind : ToolKind
  m_doc : Nat
deriving DecidableEq, Repr

/-- Modelled from the spec: `tool/toolmanager.h` is missing; the ToolManager is
one slot holding the active tool.  `destroyed` logs, oldest first, the tools
it has destroyed. -/
structure ToolManager where
  m_currentTool : Option AbstractTool
  destroyed : List AbstractTool

/-- Modelled from the spec: the state machine starts in `Idle (no tool)`. -/
def ToolManager.instance : ToolManager :=
  { m_currentTool := none, destroyed := [] }

/-- Modelled from the spec: `setTool(tool)` takes ownership of `tool`, destroys
the previously active tool and makes the new one active; a null tool is
rejected (no-op guard). -/
def ToolManager.setTool (tm : ToolManager) (tool : Option AbstractTool) : ToolManager :=
  match tool with
  | none => tm
  | some t =>
    { m_currentTool := some t
      destroyed := tm.destroyed ++ tm.m_currentTool.toList }

/-- Modelled from the spec: `currentTool()` returns the active tool. -/
def ToolManager.currentTool (tm : ToolManager) : Option AbstractTool := tm.m_currentTool

/-- Values of `QMessageBox::StandardButton` used by the window. -/
def QMessageBox.Yes : Nat := 0x00004000

/-- The value of `QMessageBox::No`. -/
def QMessageBox.No : Nat := 0x00010000

/-- The value of `QMessageBox::Cancel`. -/
def QMessageBox.Cancel : Nat := 0x00400000

/-- The function `QFileInfo(path).fileName()`: the text after the last slash. -/
def QFileInfo.fileName (path : String) : String :=
  String.mk (path.toList.reverse.takeWhile (fun c => c != '/')).reverse

/-- The function `QList::removeAll(x)`: drops every occurrence of `x`. -/
def removeAll (l : List String) (x : String) : List String :=
  l.filter (fun y => y != x)

/-- The function `QList::prepend(x)`. -/
def prepend (l : List String) (x : String) : List String :=
  x :: l

/-- Collaborators whose code is outside `mainwindow.cpp` and on which no
assumption is made: the loader, `DocumentView::clear`, the freshly allocated
document and the file-system lookup of an absolute path. -/
structure Ext where
  /-- The call `IOManager::loadFile(fileName, doc)`: result and the document afterwards. -/
  loadFile : String → DocumentView → Bool × DocumentView
  /-- The call `DocumentView::clear()`. -/
  clear : DocumentView → DocumentView
  /-- The object made by `new DocumentView()`. -/
  newDocumentView : DocumentView
  /-- The address of that object. -/
  docAddr : Nat
  /-- The function `QFileInfo(fileName).absoluteFilePath()`. -/
  absoluteFilePath : String → String

/-- What the user or the system answers during one slot invocation. -/
structure UserInput where
  /-- Button returned by the save prompt, if it is shown. -/
  answer : Nat
  /-- File name returned by the open-file dialog, if it is shown. -/
  fileName : String
  /-- Result of `m_printer->isValid()`. -/
  printerValid : Bool

/-- Calls the window makes into the toolkit and into its collaborators. -/
inductive Call where
  | setCentralWidget (doc : Nat)
  | saveWarning
  | getOpenFileName (dir : String)
  | loadFile (fileName : String) (doc : Nat)
  | showMessage (msg : String)
  | parseErrorWarning (fileName : String)
  | clear (doc : Nat)
  | setWindowTitle (title : String)
  | setModel (model : SceneModel)
  | expandToDepth (depth : Nat)
  | setTool (tool : Option AbstractTool)
  | noPrinterWarning
  | printPreview (doc : Nat)

/-! ## The window -/

/-- State of `MainWindow`: its members, the objects behind its pointers, and
the call log. -/
structure MainWindow where
  m_maxRecentFiles : Nat
  m_lastFilePath : String
  /-- Whether `m_printer` is non-null. -/
  m_printer : Bool
  m_curFile : String
  m_recentFiles : List String
  /-- The pointer `m_docView`. -/
  m_docView : Nat
  /-- The DocumentView object `m_docView` points to. -/
  doc : DocumentView
  /-- The model installed in `m_sceneTreeView` (null before the first `setModel`). -/
  treeModel : Option SceneModel
  windowTitle : String
  /-- The singleton `ToolManager::instance()`. -/
  toolManager : ToolManager
  /-- Number of tool objects made by `new` so far. -/
  toolsCreated : Nat
  calls : List Call

/-- Appends one call to the log. -/
def MainWindow.log (s : MainWindow) (c : Call) : MainWindow :=
  { s with calls := s.calls ++ [c] }

/-- The calls made between state `s` and a later state `t`. -/
def callsSince (s t : MainWindow) : List Call :=
  t.calls.drop s.calls.length

/-- The method `MainWindow::currentDocument`. -/
def currentDocument (s : MainWindow) : Nat :=
  s.m_docView

/-- The method `MainWindow::addDocument`; `d` is the object `doc` points to. -/
def addDocument (doc : Nat) (d : DocumentView) (s : MainWindow) : MainWindow :=
  ({ s with m_docView := doc, doc := d }).log (.setCentralWidget doc)

/-- The method `MainWindow::saveDocument`. -/
def saveDocument (s : MainWindow) : Bool × MainWindow :=
  (true, s)

/-- The method `MainWindow::saveAsDocument`. -/
def saveAsDocument (s : MainWindow) : MainWindow := s

/-- The method `MainWindow::closeDocument`. -/
def closeDocument (s : MainWindow) : MainWindow := s

/-- The method `MainWindow::exportDocument`. -/
def exportDocument (s : MainWindow) : MainWindow := s

/-- The method `MainWindow::setCurrentFile`. -/
def setCurrentFile (fileName : String) (s : MainWindow) : MainWindow :=
  let s1 := { s with m_curFile := fileName }
  let s2 := { s1 with doc := s1.doc.setModified false }
  let shownName := "Untitle"
  if s2.m_curFile ≠ "" then
    let shownName := QFileInfo.fileName fileName
    let s3 := { s2 with m_recentFiles := removeAll s2.m_recentFiles s2.m_curFile }
    let s4 := { s3 with m_recentFiles := prepend s3.m_recentFiles s3.m_curFile }
    let title := shownName ++ "[*] - " ++ "IndoorMap Editor"
    ({ s4 with windowTitle := title }).log (.setWindowTitle title)
  else
    let title := shownName ++ "[*] - " ++ "IndoorMap Editor"
    ({ s2 with windowTitle := title }).log (.setWindowTitle title)

/-- The method `MainWindow::okToContinue`: the result and the state afterwards. -/
def okToContinue (inp : UserInput) (s : MainWindow) : Bool × MainWindow :=
  if s.doc.isModified then
    let s1 := s.log .saveWarning
    let r := inp.answer
    if r = QMessageBox.Yes then
      saveDocument s1
    else if r = QMessageBox.Cancel then
      (false, s1)
    else
      (true, s1)
  else
    (true, s)

/-- The method `MainWindow::rebuildTreeView`. -/
def rebuildTreeView (s : MainWindow) : MainWindow :=
  let model := SceneModel.new s.doc.scene.root
  let s1 := ({ s with treeModel := some model }).log (.setModel model)
  s1.log (.expandToDepth 0)

/-- The method `MainWindow::openDocument`. -/
def openDocument (ext : Ext) (inp : UserInput) (s : MainWindow) : MainWindow :=
  let ok := okToContinue inp s
  let s1 := ok.2
  if ok.1 then
    let s2 := s1.log (.getOpenFileName s1.m_lastFilePath)
    let fileName := inp.fileName
    if fileName = "" then
      s2
    else
      let s3 := { s2 with m_lastFilePath := ext.absoluteFilePath fileName }
      let loaded := ext.loadFile fileName s3.doc
      let s4 := ({ s3 with doc := loaded.2 }).log (.loadFile fileName (currentDocument s3))
      if loaded.1 then
        let s5 := s4.log (.showMessage "文件载入成功")
        let s6 := setCurrentFile fileName s5
        rebuildTreeView s6
      else
        s4.log (.parseErrorWarning fileName)
  else
    s1

/-- The method `MainWindow::newDocument`. -/
def newDocument (ext : Ext) (inp : UserInput) (s : MainWindow) : MainWindow :=
  let ok := okToContinue inp s
  let s1 := ok.2
  if ok.1 then
    let s2 := ({ s1 with doc := ext.clear s1.doc }).log (.clear (currentDocument s1))
    let s3 := setCurrentFile "" s2
    rebuildTreeView s3
  else
    s1

/-- The method `MainWindow::printDocument`. -/
def printDocument (inp : UserInput) (s : MainWindow) : MainWindow :=
  let s1 := if s.m_printer = false then { s with m_printer := true } else s
  if !inp.printerValid then
    s1.log .noPrinterWarning
  else
    s1.log (.printPreview (currentDocument s1))

/-- The expression `new K(doc)` for a tool class `K`: the new object (never
null) and the state with the allocation counted. -/
def newTool (kind : ToolKind) (doc : Nat) (s : MainWindow) : Option AbstractTool × MainWindow :=
  (some { addr := s.toolsCreated, kind := kind, m_doc := doc },
   { s with toolsCreated := s.toolsCreated + 1 })

/-- The call `ToolManager::instance()->setTool(tool)` made from the window. -/
def callSetTool (tool : Option AbstractTool) (s : MainWindow) : MainWindow :=
  ({ s with toolManager := s.toolManager.setTool tool }).log (.setTool tool)

/-- The method `MainWindow::setPolygonTool`. -/
def setPolygonTool (s : MainWindow) : MainWindow :=
  let tool := newTool .PolygonTool (currentDocument s) s
  let s1 := callSetTool tool.1 tool.2
  { s1 with doc := s1.doc.setSelectable false }

/-- The method `MainWindow::setSelectTool`. -/
def setSelectTool (s : MainWindow) : MainWindow :=
  let tool := newTool .SelectTool (currentDocument s) s
  let s1 := callSetTool tool.1 tool.2
  { s1 with doc := s1.doc.setSelectable true }

/-- The method `MainWindow::setPubPointTool`. -/
def setPubPointTool (s : MainWindow) : MainWindow :=
  let tool := newTool .PubPointTool (currentDocument s) s
  let s1 := callSetTool tool.1 tool.2
  { s1 with doc := s1.doc.setSelectable false }

/-- The member initialisers of the constructor, before its body runs; the
document object already sits on the heap but `m_docView` is not yet set. -/
def MainWindow.members (ext : Ext) : MainWindow :=
  { m_maxRecentFiles := 5
    m_lastFilePath := "."
    m_printer := false
    m_curFile := ""
    m_recentFiles := []
    m_docView := 0
    doc := ext.newDocumentView
    treeModel := none
    windowTitle := ""
    toolManager := ToolManager.instance
    toolsCreated := 0
    calls := [] }

/-- The constructor `MainWindow::MainWindow`. -/
def MainWindow.new (ext : Ext) : MainWindow :=
  let s0 := MainWindow.members ext
  let s1 := addDocument ext.docAddr ext.newDocumentView s0
  let s2 := setCurrentFile "" s1
  let s3 := rebuildTreeView s2
  let tool := newTool .SelectTool (currentDocument s3) s3
  callSetTool tool.1 tool.2

/-! ## Event sequences -/

/-- What can happen to a constructed window: one of its slots fires, or the
active tool edits the document. -/
inductive Event where
  | openDocument (inp : UserInput)
  | newDocument (inp : UserInput)
  | saveDocument
  | saveAsDocument
  | closeDocument
  | exportDocument
  | printDocument (inp : UserInput)
  | setPolygonTool
  | setSelectTool
  | setPubPointTool
  | rebuildTreeView
  | edit (f : DocumentView → DocumentView)

/-- Runs one event. -/
def step (ext : Ext) (s : MainWindow) : Event → MainWindow
  | .openDocument inp => openDocument ext inp s
  | .newDocument inp => newDocument ext inp s
  | .saveDocument => (saveDocument s).2
  | .saveAsDocument => saveAsDocument s
  | .closeDocument => closeDocument s
  | .exportDocument => exportDocument s
  | .printDocument inp => printDocument inp s
  | .setPolygonTool => setPolygonTool s
  | .setSelectTool => setSelectTool s
  | .setPubPointTool => setPubPointTool s
  | .rebuildTreeView => rebuildTreeView s
  | .edit f => { s with doc := f s.doc }

/-- The state reached from the constructor by a sequence of events. -/
def run (ext : Ext) (evs : List Event) : MainWindow :=
  evs.foldl (step ext) (MainWindow.new ext)

/-- The tool class an event installs, if it is a tool-switch slot. -/
def Event.toolSwitch : Event → Option ToolKind
  | .setPolygonTool => some .PolygonTool
  | .setSelectTool => some .SelectTool
  | .setPubPointTool => some .PubPointTool
  | _ => none

/-- The tool class of the most recent tool-switch in a sequence of events, a
SelectTool if there is none. -/
def lastToolSwitch (evs : List Event) : ToolKind :=
  evs.foldl (fun k e => (e.toolSwitch).getD k) .SelectTool

/-- The number of tool-switch slots in a sequence of events. -/
def toolSwitchCount (evs : List Event) : Nat :=
  (evs.filter (fun e => (e.toolSwitch).isSome)).length

/-- The state after a sequence of `setCurrentFile` calls on a new window. -/
def setCurrentFiles (ext : Ext) (fs : List String) : MainWindow :=
  fs.foldl (fun s f => setCurrentFile f s) (MainWindow.new ext)


/-! ## Concrete data used to exercise the statements -/

/-- A small scene: a building with two children, one of which has a child. -/
def demoRoot : MapEntity := .node 0 [.node 1 [], .node 2 [.node 3 []]]

/-- An unmodified, selectable document showing `demoRoot`. -/
def demoDoc : DocumentView :=
  { m_scene := { root := demoRoot }, m_isModified := false, m_selectable := true }

/-- A loader that fails, leaving the document alone, on names of at most three
characters and otherwise replaces the scene; `clear` empties the scene. -/
def demoExt : Ext :=
  { loadFile := fun f d =>
      if f.length ≤ 3 then (false, d)
      else (true, { d with m_scene := { root := .node 7 [.node 8 []] }, m_isModified := true })
    clear := fun d => { d with m_scene := { root := .node 0 [] } }
    newDocumentView := demoDoc
    docAddr := 1
    absoluteFilePath := fun f => "/home/user/" ++ f }

/-- A newly constructed window whose document has then been edited. -/
def demoEdited : MainWindow :=
  step demoExt (MainWindow.new demoExt)
    (.edit (fun d => { d with m_scene := { root := .node 0 [.node 5 []] }, m_isModified := true }))

/-- Six openDocument events, each loading a different file successfully. -/
def sixOpens : List Event :=
  ["a.json", "b.json", "c.json", "d.json", "e.json", "f.json"].map
    (fun f => Event.openDocument ⟨QMessageBox.No, f, true⟩)

/-- The document-related state of `t` is that of `s`: the document (content,
modified and selectable flags), the current file name, the recent-files list,
the last-used path and the model installed in the tree view. -/
def sameDocumentState (s t : MainWindow) : Prop :=
  t.doc = s.doc ∧ t.m_curFile = s.m_curFile ∧ t.m_recentFiles = s.m_recentFiles ∧
  t.m_lastFilePath = s.m_lastFilePath ∧ t.treeModel = s.treeModel

/-! ## Frame lemmas -/

/-- The state after okToContinue: the prompt is logged exactly when the document is modified. -/
theorem okToContinue_snd (inp : UserInput) (s : MainWindow) :
    (okToContinue inp s).2 = if s.doc.isModified then s.log .saveWarning else s := by
  unfold okToContinue saveDocument
  have hne : QMessageBox.Cancel ≠ QMessageBox.Yes := by decide
  by_cases hm : s.doc.isModified = true
  · by_cases hy : inp.answer = QMessageBox.Yes
    · simp [hm, hy]
    · by_cases hc : inp.answer = QMessageBox.Cancel
      · simp [hm, hc, hne]
      · simp [hm, hy, hc]
  · simp [hm]

/-- The result of okToContinue is false exactly for a modified document and the answer Cancel. -/
theorem okToContinue_fst (inp : UserInput) (s : MainWindow) :
    (okToContinue inp s).1 = !(s.doc.isModified && decide (inp.answer = QMessageBox.Cancel)) := by
  unfold okToContinue saveDocument
  have hne : QMessageBox.Yes ≠ QMessageBox.Cancel := by decide
  by_cases hm : s.doc.isModified = true
  · by_cases hy : inp.answer = QMessageBox.Yes
    · simp [hm, hy, hne]
    · by_cases hc : inp.answer = QMessageBox.Cancel
      · simp [hm, hc, hne.symm]
      · simp [hm, hy, hc]
  · simp [hm]

/-- Removing all occurrences is filtering on inequality. -/
theorem removeAll_eq (l : List String) (x : String) :
    removeAll l x = l.filter (fun y => decide (y ≠ x)) := by
  unfold removeAll
  congr 1
  funext y
  by_cases h : y = x <;> simp [h]

/-- The recent-files list after setCurrentFile. -/
theorem setCurrentFile_recent (f : String) (s : MainWindow) :
    (setCurrentFile f s).m_recentFiles =
      if f = "" then s.m_recentFiles else f :: removeAll s.m_recentFiles f := by
  unfold setCurrentFile
  by_cases h : f = "" <;> simp [h, MainWindow.log, prepend]

/-- The limit member is not written by setCurrentFile. -/
theorem setCurrentFile_max (f : String) (s : MainWindow) :
    (setCurrentFile f s).m_maxRecentFiles = s.m_maxRecentFiles := by
  unfold setCurrentFile
  by_cases h : f = "" <;> simp [h, MainWindow.log]

/-- A new window has no recent files. -/
theorem new_recent (ext : Ext) : (MainWindow.new ext).m_recentFiles = [] := rfl

/-- One more setCurrentFile call at the end of a sequence. -/
theorem setCurrentFiles_snoc (ext : Ext) (fs : List String) (f : String) :
    setCurrentFiles ext (fs ++ [f]) = setCurrentFile f (setCurrentFiles ext fs) := by
  simp [setCurrentFiles, List.foldl_append]

/-- The limit member stays 5 along setCurrentFile calls. -/
theorem setCurrentFiles_max (ext : Ext) (fs : List String) :
    (setCurrentFiles ext fs).m_maxRecentFiles = 5 := by
  induction fs using List.reverseRecOn with
  | nil => rfl
  | append_singleton fs f ih => rw [setCurrentFiles_snoc, setCurrentFile_max, ih]

/-- The recent-files list stays duplicate-free along setCurrentFile calls. -/
theorem setCurrentFiles_nodup (ext : Ext) (fs : List String) :
    (setCurrentFiles ext fs).m_recentFiles.Nodup := by
  induction fs using List.reverseRecOn with
  | nil => simp [setCurrentFiles, new_recent]
  | append_singleton fs f ih =>
    rw [setCurrentFiles_snoc, setCurrentFile_recent]
    by_cases h : f = ""
    · simpa [h] using ih
    · simp only [h, if_false, removeAll_eq]
      refine List.nodup_cons.mpr ⟨?_, ih.filter _⟩
      simp [List.mem_filter]

/-- The recent-files list holds exactly the non-empty names set so far. -/
theorem setCurrentFiles_mem (ext : Ext) (fs : List String) (x : String) :
    x ∈ (setCurrentFiles ext fs).m_recentFiles ↔ x ∈ fs ∧ x ≠ "" := by
  induction fs using List.reverseRecOn with
  | nil => simp [setCurrentFiles, new_recent]
  | append_singleton fs f ih =>
    rw [setCurrentFiles_snoc, setCurrentFile_recent]
    by_cases h : f = ""
    · simp only [h, if_true, ih, List.mem_append, List.mem_singleton]
      constructor
      · rintro ⟨h1, h2⟩; exact ⟨Or.inl h1, h2⟩
      · rintro ⟨h1 | h1, h2⟩
        · exact ⟨h1, h2⟩
        · exact absurd h1 h2
    · simp only [h, if_false, removeAll_eq, List.mem_cons, List.mem_filter, ih,
        List.mem_append, List.mem_singleton, decide_eq_true_eq, List.not_mem_nil, or_false]
      constructor
      · rintro (h1 | ⟨⟨h1, h2⟩, _⟩)
        · exact ⟨Or.inr h1, h1 ▸ h⟩
        · exact ⟨Or.inl h1, h2⟩
      · rintro ⟨h1 | h1, h2⟩
        · by_cases hx : x = f
          · exact Or.inl hx
          · exact Or.inr ⟨⟨h1, h2⟩, hx⟩
        · exact Or.inl h1

/-! ## The claims -/

/-- C6: okToContinue returns true, leaving the window and its call log as they
were (no prompt), when the document is not modified; when it is modified the
prompt is shown once, the result is false exactly for the answer Cancel, the
answer No gives true and the answer Yes gives the result of saveDocument,
which is true.  So the result is false exactly when the document is modified
and the answer is Cancel. -/
theorem okToContinue_prompt_and_decide (inp : UserInput) (s : MainWindow) :
    (s.doc.isModified = false → okToContinue inp s = (true, s)) ∧
    (s.doc.isModified = true →
      (okToContinue inp s).2 = s.log .saveWarning ∧
      ((okToContinue inp s).1 = false ↔ inp.answer = QMessageBox.Cancel) ∧
      (inp.answer = QMessageBox.No → (okToContinue inp s).1 = true) ∧
      (inp.answer = QMessageBox.Yes →
        (okToContinue inp s).1 = (saveDocument (s.log .saveWarning)).1 ∧
        (saveDocument (s.log .saveWarning)).1 = true)) ∧
    ((okToContinue inp s).1 = false ↔
      (s.doc.isModified = true ∧ inp.answer = QMessageBox.Cancel)) := by
  refine ⟨?_, ?_, ?_⟩
  · intro h
    apply Prod.ext
    · simp [okToContinue_fst, h]
    · simp [okToContinue_snd, h]
  · intro h
    refine ⟨by simp [okToContinue_snd, h], by simp [okToContinue_fst, h], ?_, ?_⟩
    · intro hn
      have : QMessageBox.No ≠ QMessageBox.Cancel := by decide
      simp [okToContinue_fst, h, hn, this]
    · intro hy
      have : QMessageBox.Yes ≠ QMessageBox.Cancel := by decide
      simp [okToContinue_fst, h, hy, this, saveDocument]
  · simp [okToContinue_fst]

/-- C6, exercised on an edited window: Cancel is refused, No and Yes proceed. -/
theorem okToContinue_prompt_and_decide_witness :
    demoEdited.doc.isModified = true ∧
    (okToContinue ⟨QMessageBox.Cancel, "", true⟩ demoEdited).1 = false ∧
    (okToContinue ⟨QMessageBox.No, "", true⟩ demoEdited).1 = true ∧
    (okToContinue ⟨QMessageBox.Yes, "", true⟩ demoEdited).1 = true ∧
    okToContinue ⟨QMessageBox.Yes, "", true⟩ (MainWindow.new demoExt)
      = (true, MainWindow.new demoExt) :=
  ⟨rfl,
   ((okToContinue_prompt_and_decide ⟨QMessageBox.Cancel, "", true⟩ demoEdited).2.1 rfl).2.1.mpr rfl,
   ((okToContinue_prompt_and_decide ⟨QMessageBox.No, "", true⟩ demoEdited).2.1 rfl).2.2.1 rfl,
   (((okToContinue_prompt_and_decide ⟨QMessageBox.Yes, "", true⟩ demoEdited).2.1 rfl).2.2.2 rfl).1.trans
     (((okToContinue_prompt_and_decide ⟨QMessageBox.Yes, "", true⟩ demoEdited).2.1 rfl).2.2.2 rfl).2,
   (okToContinue_prompt_and_decide ⟨QMessageBox.Yes, "", true⟩ (MainWindow.new demoExt)).1 rfl⟩

/-- C2: after setSelectTool the document is selectable, after setPolygonTool
and setPubPointTool it is not, whatever the flag was before; so after each of
the three slots the document is selectable exactly when the active tool is a
SelectTool. -/
theorem tool_switch_sets_selectable (s : MainWindow) :
    (setSelectTool s).doc.m_selectable = true ∧
    (setPolygonTool s).doc.m_selectable = false ∧
    (setPubPointTool s).doc.m_selectable = false ∧
    ((setSelectTool s).doc.m_selectable = true ↔
      ∃ t, (setSelectTool s).toolManager.currentTool = some t ∧ t.kind = .SelectTool) ∧
    ((setPolygonTool s).doc.m_selectable = true ↔
      ∃ t, (setPolygonTool s).toolManager.currentTool = some t ∧ t.kind = .SelectTool) ∧
    ((setPubPointTool s).doc.m_selectable = true ↔
      ∃ t, (setPubPointTool s).toolManager.currentTool = some t ∧ t.kind = .SelectTool) := by
  simp [setSelectTool, setPolygonTool, setPubPointTool, newTool, callSetTool, MainWindow.log,
    ToolManager.setTool, ToolManager.currentTool, DocumentView.setSelectable]

/-- C9: on a duplicate-free recent-files list, setCurrentFile with a non-empty
name f puts f first, keeps f exactly once, and leaves behind it the previous
list with f removed, in the previous order (a sublist of the previous list),
so the list stays duplicate-free; with the empty name the list is unchanged;
and from a new window, whose list is empty, the list has no duplicates after
any sequence of setCurrentFile calls. -/
theorem recentFiles_most_recent_first (ext : Ext) (s : MainWindow) (f : String)
    (fs : List String) :
    (s.m_recentFiles.Nodup → f ≠ "" →
      (setCurrentFile f s).m_recentFiles.head? = some f ∧
      (setCurrentFile f s).m_recentFiles.count f = 1 ∧
      (setCurrentFile f s).m_recentFiles.tail = s.m_recentFiles.filter (fun y => decide (y ≠ f)) ∧
      (setCurrentFile f s).m_recentFiles.tail = s.m_recentFiles.erase f ∧
      (setCurrentFile f s).m_recentFiles.tail.Sublist s.m_recentFiles ∧
      (setCurrentFile f s).m_recentFiles.Nodup) ∧
    (setCurrentFile "" s).m_recentFiles = s.m_recentFiles ∧
    (MainWindow.new ext).m_recentFiles = [] ∧
    (setCurrentFiles ext fs).m_recentFiles.Nodup := by
  refine ⟨?_, ?_, rfl, setCurrentFiles_nodup ext fs⟩
  · intro hnd hf
    have hnot : f ∉ s.m_recentFiles.filter (fun y => decide (y ≠ f)) := by
      simp [List.mem_filter]
    rw [setCurrentFile_recent]
    simp only [hf, if_false, removeAll_eq, List.head?_cons, List.tail_cons, true_and]
    refine ⟨?_, ?_, List.filter_sublist _, List.nodup_cons.mpr ⟨hnot, hnd.filter _⟩⟩
    · rw [List.count_cons_self, List.count_eq_zero_of_not_mem hnot]
    · rw [hnd.erase_eq_filter]
      congr 1
      funext y
      by_cases h : y = f <;> simp [h]
  · rw [setCurrentFile_recent]; simp

/-- C9, exercised: re-opening "b" moves it to the front of ["a", "b", "c"]. -/
theorem recentFiles_most_recent_first_witness :
    (setCurrentFile "b" { demoEdited with m_recentFiles := ["a", "b", "c"] }).m_recentFiles.head?
      = some "b" ∧
    (setCurrentFile "b" { demoEdited with m_recentFiles := ["a", "b", "c"] }).m_recentFiles.tail
      = ["a", "c"] :=
  have h := (recentFiles_most_recent_first demoExt
    { demoEdited with m_recentFiles := ["a", "b", "c"] } "b" []).1 (by decide) (by decide)
  ⟨h.1, h.2.2.1.trans (by decide)⟩

/-- C10 as stated fails: six distinct names set on a new window leave six
entries in the list although m_maxRecentFiles is 5, and so do six successful
openDocument calls. -/
theorem recentFiles_limit_counterexample :
    (setCurrentFiles demoExt ["a", "b", "c", "d", "e", "f"]).m_recentFiles.length = 6 ∧
    (setCurrentFiles demoExt ["a", "b", "c", "d", "e", "f"]).m_maxRecentFiles = 5 ∧
    ¬ ((setCurrentFiles demoExt ["a", "b", "c", "d", "e", "f"]).m_recentFiles.length ≤
        (setCurrentFiles demoExt ["a", "b", "c", "d", "e", "f"]).m_maxRecentFiles) ∧
    (run demoExt sixOpens).m_recentFiles
      = ["f.json", "e.json", "d.json", "c.json", "b.json", "a.json"] ∧
    ¬ ((run demoExt sixOpens).m_recentFiles.length ≤ (run demoExt sixOpens).m_maxRecentFiles) := by
  decide

/-- C10 amended: after any sequence of setCurrentFile calls on a new window,
m_maxRecentFiles is still 5 and is not enforced; the list holds exactly one
entry for each distinct non-empty name set so far, so each call adds at most
one entry and the list has at most 5 entries whenever at most 5 distinct
non-empty names have been set. -/
theorem recentFiles_length_distinct (ext : Ext) (fs : List String) (f : String) :
    (setCurrentFiles ext fs).m_maxRecentFiles = 5 ∧
    (setCurrentFiles ext fs).m_recentFiles.length
      = ((fs.filter (fun x => decide (x ≠ ""))).dedup).length ∧
    (setCurrentFile f (setCurrentFiles ext fs)).m_recentFiles.length
      ≤ (setCurrentFiles ext fs).m_recentFiles.length + 1 ∧
    (((fs.filter (fun x => decide (x ≠ ""))).dedup).length ≤ 5 →
      (setCurrentFiles ext fs).m_recentFiles.length ≤ (setCurrentFiles ext fs).m_maxRecentFiles) := by
  have hlen : (setCurrentFiles ext fs).m_recentFiles.length
      = ((fs.filter (fun x => decide (x ≠ ""))).dedup).length := by
    apply List.Perm.length_eq
    rw [List.perm_ext_iff_of_nodup (setCurrentFiles_nodup ext fs) (List.nodup_dedup _)]
    intro x
    simp [setCurrentFiles_mem, List.mem_dedup, List.mem_filter]
  refine ⟨setCurrentFiles_max ext fs, hlen, ?_, ?_⟩
  · rw [setCurrentFile_recent]
    by_cases h : f = ""
    · simp [h]
    · simp only [h, if_false, removeAll_eq, List.length_cons, Nat.add_le_add_iff_right]
      exact List.length_filter_le _ _
  · intro h
    rw [setCurrentFiles_max, hlen]
    exact h

/-- C10 amended, exercised: three distinct names among five calls give three entries. -/
theorem recentFiles_length_distinct_witness :
    (setCurrentFiles demoExt ["a", "b", "a", "", "c"]).m_recentFiles.length ≤
      (setCurrentFiles demoExt ["a", "b", "a", "", "c"]).m_maxRecentFiles :=
  (recentFiles_length_distinct demoExt ["a", "b", "a", "", "c"] "a").2.2.2 (by decide)

/-- The call log after okToContinue. -/
theorem okToContinue_calls (inp : UserInput) (s : MainWindow) :
    (okToContinue inp s).2.calls = s.calls ++ if s.doc.isModified then [Call.saveWarning] else [] := by
  rw [okToContinue_snd]
  by_cases h : s.doc.isModified = true <;> simp [h, MainWindow.log]

/-- Members that okToContinue leaves alone. -/
theorem okToContinue_rest (inp : UserInput) (s : MainWindow) :
    (okToContinue inp s).2.doc = s.doc ∧
    (okToContinue inp s).2.m_curFile = s.m_curFile ∧
    (okToContinue inp s).2.m_recentFiles = s.m_recentFiles ∧
    (okToContinue inp s).2.m_lastFilePath = s.m_lastFilePath ∧
    (okToContinue inp s).2.treeModel = s.treeModel ∧
    (okToContinue inp s).2.windowTitle = s.windowTitle ∧
    (okToContinue inp s).2.m_docView = s.m_docView ∧
    (okToContinue inp s).2.toolManager = s.toolManager ∧
    (okToContinue inp s).2.toolsCreated = s.toolsCreated := by
  rw [okToContinue_snd]
  by_cases h : s.doc.isModified = true <;> simp [h, MainWindow.log]

/-- Members other than the recent-files list after setCurrentFile. -/
theorem setCurrentFile_rest (f : String) (s : MainWindow) :
    (setCurrentFile f s).doc = s.doc.setModified false ∧
    (setCurrentFile f s).m_curFile = f ∧
    (setCurrentFile f s).m_lastFilePath = s.m_lastFilePath ∧
    (setCurrentFile f s).treeModel = s.treeModel ∧
    (setCurrentFile f s).m_docView = s.m_docView ∧
    (setCurrentFile f s).toolManager = s.toolManager ∧
    (setCurrentFile f s).toolsCreated = s.toolsCreated := by
  unfold setCurrentFile
  by_cases h : f = "" <;> simp [h, MainWindow.log]

/-- The model installed by rebuildTreeView and the members it leaves alone. -/
theorem rebuildTreeView_rest (s : MainWindow) :
    (rebuildTreeView s).treeModel = some (SceneModel.new s.doc.scene.root) ∧
    (rebuildTreeView s).doc = s.doc ∧
    (rebuildTreeView s).m_curFile = s.m_curFile ∧
    (rebuildTreeView s).m_recentFiles = s.m_recentFiles ∧
    (rebuildTreeView s).m_lastFilePath = s.m_lastFilePath ∧
    (rebuildTreeView s).m_docView = s.m_docView ∧
    (rebuildTreeView s).toolManager = s.toolManager ∧
    (rebuildTreeView s).toolsCreated = s.toolsCreated := by
  simp [rebuildTreeView, MainWindow.log]

/-- The path of openDocument when okToContinue returns false. -/
theorem openDocument_declined (ext : Ext) (inp : UserInput) (s : MainWindow)
    (h : (okToContinue inp s).1 = false) : openDocument ext inp s = (okToContinue inp s).2 := by
  simp [openDocument, h]

/-- The path of openDocument when the dialog returns an empty name. -/
theorem openDocument_no_file (ext : Ext) (inp : UserInput) (s : MainWindow)
    (h : (okToContinue inp s).1 = true) (hf : inp.fileName = "") :
    openDocument ext inp s =
      (okToContinue inp s).2.log (.getOpenFileName s.m_lastFilePath) := by
  simp [openDocument, h, hf, (okToContinue_rest inp s).2.2.2.1]

/-- The path of openDocument when loadFile fails. -/
theorem openDocument_failed (ext : Ext) (inp : UserInput) (s : MainWindow)
    (h : (okToContinue inp s).1 = true) (hf : inp.fileName ≠ "")
    (hl : (ext.loadFile inp.fileName s.doc).1 = false) :
    openDocument ext inp s =
      (({ (okToContinue inp s).2.log (.getOpenFileName s.m_lastFilePath) with
            m_lastFilePath := ext.absoluteFilePath inp.fileName
            doc := (ext.loadFile inp.fileName s.doc).2 }).log
          (.loadFile inp.fileName (currentDocument s))).log (.parseErrorWarning inp.fileName) := by
  obtain ⟨h1, -, -, h4, -, -, h7, -, -⟩ := okToContinue_rest inp s
  simp [openDocument, h, hf, MainWindow.log, currentDocument, h1, h4, h7, hl]

/-- The path of openDocument when loadFile succeeds. -/
theorem openDocument_loaded (ext : Ext) (inp : UserInput) (s : MainWindow)
    (h : (okToContinue inp s).1 = true) (hf : inp.fileName ≠ "")
    (hl : (ext.loadFile inp.fileName s.doc).1 = true) :
    openDocument ext inp s =
      rebuildTreeView (setCurrentFile inp.fileName
        ((({ (okToContinue inp s).2.log (.getOpenFileName s.m_lastFilePath) with
            m_lastFilePath := ext.absoluteFilePath inp.fileName
            doc := (ext.loadFile inp.fileName s.doc).2 }).log
          (.loadFile inp.fileName (currentDocument s))).log (.showMessage "文件载入成功"))) := by
  obtain ⟨h1, -, -, h4, -, -, h7, -, -⟩ := okToContinue_rest inp s
  simp [openDocument, h, hf, MainWindow.log, currentDocument, h1, h4, h7, hl]

/-- The path of newDocument when okToContinue returns false. -/
theorem newDocument_declined (ext : Ext) (inp : UserInput) (s : MainWindow)
    (h : (okToContinue inp s).1 = false) : newDocument ext inp s = (okToContinue inp s).2 := by
  simp [newDocument, h]

/-- The path of newDocument when okToContinue returns true. -/
theorem newDocument_proceeds (ext : Ext) (inp : UserInput) (s : MainWindow)
    (h : (okToContinue inp s).1 = true) :
    newDocument ext inp s =
      rebuildTreeView (setCurrentFile ""
        (({ (okToContinue inp s).2 with doc := ext.clear s.doc }).log
          (.clear (currentDocument s)))) := by
  obtain ⟨h1, -, -, h4, -, -, h7, -, -⟩ := okToContinue_rest inp s
  simp [newDocument, h, MainWindow.log, currentDocument, h1, h7]

/-- The calls made since a state whose log is extended. -/
theorem callsSince_append (s t : MainWindow) (new : List Call) (h : t.calls = s.calls ++ new) :
    callsSince s t = new := by
  simp [callsSince, h]

/-- C1: when the user has agreed to continue and picked a non-empty file name
and loadFile fails without touching the document, openDocument leaves the
current file name, the document (its modified flag included), the recent-files
list, the tree view's model and the window title as they were; after the
prompt it only shows the file dialog, calls loadFile and shows the warning, so
setCurrentFile (no setWindowTitle) and rebuildTreeView (no setModel) are not
executed. -/
theorem openDocument_load_failure_keeps_document (ext : Ext) (inp : UserInput) (s : MainWindow)
    (hok : (okToContinue inp s).1 = true) (hname : inp.fileName ≠ "")
    (hfail : (ext.loadFile inp.fileName s.doc).1 = false)
    (hsame : (ext.loadFile inp.fileName s.doc).2 = s.doc) :
    (openDocument ext inp s).m_curFile = s.m_curFile ∧
    (openDocument ext inp s).doc.isModified = s.doc.isModified ∧
    (openDocument ext inp s).doc = s.doc ∧
    (openDocument ext inp s).m_recentFiles = s.m_recentFiles ∧
    (openDocument ext inp s).treeModel = s.treeModel ∧
    (openDocument ext inp s).windowTitle = s.windowTitle ∧
    callsSince (okToContinue inp s).2 (openDocument ext inp s) =
      [.getOpenFileName s.m_lastFilePath, .loadFile inp.fileName (currentDocument s),
       .parseErrorWarning inp.fileName] ∧
    (∀ title, Call.setWindowTitle title ∉ callsSince s (openDocument ext inp s)) ∧
    (∀ model, Call.setModel model ∉ callsSince s (openDocument ext inp s)) := by
  obtain ⟨h1, h2, h3, h4, h5, h6, h7, -, -⟩ := okToContinue_rest inp s
  have hc : (openDocument ext inp s).calls = s.calls ++
      ((if s.doc.isModified then [Call.saveWarning] else []) ++
        [.getOpenFileName s.m_lastFilePath, .loadFile inp.fileName (currentDocument s),
         .parseErrorWarning inp.fileName]) := by
    rw [openDocument_failed ext inp s hok hname hfail]
    simp [MainWindow.log, okToContinue_calls]
  refine ⟨?_, ?_, ?_, ?_, ?_, ?_, ?_, ?_, ?_⟩
  · rw [openDocument_failed ext inp s hok hname hfail]; simpa [MainWindow.log] using h2
  · rw [openDocument_failed ext inp s hok hname hfail]; simp [MainWindow.log, hsame]
  · rw [openDocument_failed ext inp s hok hname hfail]; simp [MainWindow.log, hsame]
  · rw [openDocument_failed ext inp s hok hname hfail]; simpa [MainWindow.log] using h3
  · rw [openDocument_failed ext inp s hok hname hfail]; simpa [MainWindow.log] using h5
  · rw [openDocument_failed ext inp s hok hname hfail]; simpa [MainWindow.log] using h6
  · apply callsSince_append
    rw [openDocument_failed ext inp s hok hname hfail]
    simp [MainWindow.log]
  · intro title
    rw [callsSince_append s _ _ hc]
    by_cases hm : s.doc.isModified = true <;> simp [hm]
  · intro model
    rw [callsSince_append s _ _ hc]
    by_cases hm : s.doc.isModified = true <;> simp [hm]

/-- C1, exercised: on an edited window the user answers Yes and picks "a",
which the loader refuses; the document is still the edited one. -/
theorem openDocument_load_failure_keeps_document_witness :
    (openDocument demoExt ⟨QMessageBox.Yes, "a", true⟩ demoEdited).doc = demoEdited.doc ∧
    (openDocument demoExt ⟨QMessageBox.Yes, "a", true⟩ demoEdited).m_curFile = "" :=
  have h := openDocument_load_failure_keeps_document demoExt ⟨QMessageBox.Yes, "a", true⟩
    demoEdited rfl (by decide) rfl rfl
  ⟨h.2.2.1, h.1⟩

/-- C3: the modified flag is false right after setCurrentFile, for every file
name and prior state; hence it is false after an openDocument whose loadFile
succeeds (whatever the loader did to the flag) and after a newDocument for
which okToContinue returned true, where the current file name is empty too. -/
theorem modified_cleared_on_load_and_new (ext : Ext) (inp : UserInput) (s : MainWindow)
    (f : String) :
    (setCurrentFile f s).doc.isModified = false ∧
    ((okToContinue inp s).1 = true → inp.fileName ≠ "" →
      (ext.loadFile inp.fileName s.doc).1 = true →
      (openDocument ext inp s).doc.isModified = false ∧
      (openDocument ext inp s).m_curFile = inp.fileName) ∧
    ((okToContinue inp s).1 = true →
      (newDocument ext inp s).doc.isModified = false ∧
      (newDocument ext inp s).m_curFile = "") := by
  have hset : ∀ g t, (setCurrentFile g t).doc.isModified = false := by
    intro g t
    rw [(setCurrentFile_rest g t).1]
    rfl
  refine ⟨hset f s, ?_, ?_⟩
  · intro hok hname hl
    rw [openDocument_loaded ext inp s hok hname hl, (rebuildTreeView_rest _).2.1,
      (rebuildTreeView_rest _).2.2.1]
    exact ⟨hset _ _, (setCurrentFile_rest _ _).2.1⟩
  · intro hok
    rw [newDocument_proceeds ext inp s hok, (rebuildTreeView_rest _).2.1,
      (rebuildTreeView_rest _).2.2.1]
    exact ⟨hset _ _, (setCurrentFile_rest _ _).2.1⟩

/-- C3, exercised: the demo loader marks the document modified, yet after a
successful open the flag is false; likewise after a new document. -/
theorem modified_cleared_on_load_and_new_witness :
    (demoExt.loadFile "plan.json" demoEdited.doc).2.isModified = true ∧
    (openDocument demoExt ⟨QMessageBox.No, "plan.json", true⟩ demoEdited).doc.isModified = false ∧
    (newDocument demoExt ⟨QMessageBox.No, "plan.json", true⟩ demoEdited).doc.isModified = false :=
  have h := modified_cleared_on_load_and_new demoExt ⟨QMessageBox.No, "plan.json", true⟩
    demoEdited ""
  ⟨rfl, (h.2.1 rfl (by decide) rfl).1, (h.2.2 rfl).1⟩

/-- C8: when the document is modified and the user answers Cancel, newDocument
and openDocument only show the prompt: the document, the current file name,
the recent-files list, the last-used path and the tree model are unchanged
and clear is not called.  When the user proceeds in openDocument and the file
dialog returns an empty name, the same fields, m_lastFilePath included, are
unchanged and loadFile is not called. -/
theorem declining_is_noop (ext : Ext) (inp : UserInput) (s : MainWindow) :
    (s.doc.isModified = true → inp.answer = QMessageBox.Cancel →
      newDocument ext inp s = s.log .saveWarning ∧
      openDocument ext inp s = s.log .saveWarning ∧
      sameDocumentState s (newDocument ext inp s) ∧
      sameDocumentState s (openDocument ext inp s) ∧
      (∀ d, Call.clear d ∉ callsSince s (newDocument ext inp s)) ∧
      (∀ f d, Call.loadFile f d ∉ callsSince s (openDocument ext inp s))) ∧
    ((okToContinue inp s).1 = true → inp.fileName = "" →
      sameDocumentState s (openDocument ext inp s) ∧
      (openDocument ext inp s).m_lastFilePath = s.m_lastFilePath ∧
      callsSince (okToContinue inp s).2 (openDocument ext inp s)
        = [.getOpenFileName s.m_lastFilePath] ∧
      (∀ f d, Call.loadFile f d ∉ callsSince s (openDocument ext inp s))) := by
  constructor
  · intro hm hc
    have hno : (okToContinue inp s).1 = false := by simp [okToContinue_fst, hm, hc]
    have hst : (okToContinue inp s).2 = s.log .saveWarning := by simp [okToContinue_snd, hm]
    have hn : newDocument ext inp s = s.log .saveWarning := by
      rw [newDocument_declined ext inp s hno, hst]
    have ho : openDocument ext inp s = s.log .saveWarning := by
      rw [openDocument_declined ext inp s hno, hst]
    have hcalls : callsSince s (s.log .saveWarning) = [Call.saveWarning] :=
      callsSince_append s _ _ rfl
    refine ⟨hn, ho, ?_, ?_, ?_, ?_⟩
    · rw [hn]; exact ⟨rfl, rfl, rfl, rfl, rfl⟩
    · rw [ho]; exact ⟨rfl, rfl, rfl, rfl, rfl⟩
    · intro d; rw [hn, hcalls]; simp
    · intro f d; rw [ho, hcalls]; simp
  · intro hok hf
    obtain ⟨h1, h2, h3, h4, h5, -, -, -, -⟩ := okToContinue_rest inp s
    have ho := openDocument_no_file ext inp s hok hf
    have hc : (openDocument ext inp s).calls = s.calls ++
        ((if s.doc.isModified then [Call.saveWarning] else []) ++
          [.getOpenFileName s.m_lastFilePath]) := by
      rw [ho]; simp [MainWindow.log, okToContinue_calls]
    refine ⟨?_, ?_, ?_, ?_⟩
    · rw [ho]; exact ⟨h1, h2, h3, h4, h5⟩
    · rw [ho]; exact h4
    · apply callsSince_append; rw [ho]; rfl
    · intro f d
      rw [callsSince_append s _ _ hc]
      by_cases hm : s.doc.isModified = true <;> simp [hm]

/-- C8, exercised: Cancel on the edited window, and an empty file name after No. -/
theorem declining_is_noop_witness :
    sameDocumentState demoEdited (newDocument demoExt ⟨QMessageBox.Cancel, "x.json", true⟩ demoEdited) ∧
    sameDocumentState demoEdited (openDocument demoExt ⟨QMessageBox.Cancel, "x.json", true⟩ demoEdited) ∧
    sameDocumentState demoEdited (openDocument demoExt ⟨QMessageBox.No, "", true⟩ demoEdited) :=
  ⟨((declining_is_noop demoExt ⟨QMessageBox.Cancel, "x.json", true⟩ demoEdited).1 rfl rfl).2.2.1,
   ((declining_is_noop demoExt ⟨QMessageBox.Cancel, "x.json", true⟩ demoEdited).1 rfl rfl).2.2.2.1,
   ((declining_is_noop demoExt ⟨QMessageBox.No, "", true⟩ demoEdited).2 rfl rfl).1⟩

/-- C5: rebuildTreeView installs the projection of the current scene root and
leaves the document alone; the result does not depend on the model installed
before, so a second call in a row gives the same projection.  An openDocument
whose load succeeds and a newDocument that proceeds return from a final
rebuildTreeView, and the constructor runs it before installing the first tool;
on return from each of the three the tree view's model is the projection of
the scene root as it is then. -/
theorem rebuildTreeView_projects_scene (ext : Ext) (inp : UserInput) (s : MainWindow)
    (old : Option SceneModel) :
    (rebuildTreeView s).treeModel = some (SceneModel.new s.doc.scene.root) ∧
    (rebuildTreeView s).doc = s.doc ∧
    (rebuildTreeView { s with treeModel := old }).treeModel = (rebuildTreeView s).treeModel ∧
    (rebuildTreeView (rebuildTreeView s)).treeModel = (rebuildTreeView s).treeModel ∧
    ((okToContinue inp s).1 = true → inp.fileName ≠ "" →
      (ext.loadFile inp.fileName s.doc).1 = true →
      (∃ t, openDocument ext inp s = rebuildTreeView t) ∧
      (openDocument ext inp s).treeModel
        = some (SceneModel.new (openDocument ext inp s).doc.scene.root)) ∧
    ((okToContinue inp s).1 = true →
      (∃ t, newDocument ext inp s = rebuildTreeView t) ∧
      (newDocument ext inp s).treeModel
        = some (SceneModel.new (newDocument ext inp s).doc.scene.root)) ∧
    (MainWindow.new ext).calls =
      [.setCentralWidget ext.docAddr, .setWindowTitle "Untitle[*] - IndoorMap Editor",
       .setModel (SceneModel.new (MainWindow.new ext).doc.scene.root), .expandToDepth 0,
       .setTool (some ⟨0, .SelectTool, ext.docAddr⟩)] ∧
    (MainWindow.new ext).treeModel
      = some (SceneModel.new (MainWindow.new ext).doc.scene.root) := by
  refine ⟨(rebuildTreeView_rest s).1, (rebuildTreeView_rest s).2.1, ?_, ?_, ?_, ?_, rfl, rfl⟩
  · rw [(rebuildTreeView_rest _).1, (rebuildTreeView_rest _).1]
  · rw [(rebuildTreeView_rest _).1, (rebuildTreeView_rest _).2.1, (rebuildTreeView_rest _).1]
  · intro hok hname hl
    rw [openDocument_loaded ext inp s hok hname hl]
    exact ⟨⟨_, rfl⟩, by rw [(rebuildTreeView_rest _).1, (rebuildTreeView_rest _).2.1]⟩
  · intro hok
    rw [newDocument_proceeds ext inp s hok]
    exact ⟨⟨_, rfl⟩, by rw [(rebuildTreeView_rest _).1, (rebuildTreeView_rest _).2.1]⟩

/-- C5, exercised: after a successful open the model mirrors the loaded scene,
after a new document the cleared one. -/
theorem rebuildTreeView_projects_scene_witness :
    (openDocument demoExt ⟨QMessageBox.No, "plan.json", true⟩ demoEdited).treeModel
      = some ⟨.node 7 [.node 8 []]⟩ ∧
    (newDocument demoExt ⟨QMessageBox.No, "", true⟩ demoEdited).treeModel
      = some ⟨.node 0 []⟩ :=
  have h := rebuildTreeView_projects_scene demoExt ⟨QMessageBox.No, "plan.json", true⟩
    demoEdited none
  have h2 := rebuildTreeView_projects_scene demoExt ⟨QMessageBox.No, "", true⟩ demoEdited none
  ⟨(h.2.2.2.2.1 rfl (by decide) rfl).2.trans rfl, (h2.2.2.2.2.2.1 rfl).2.trans rfl⟩

/-- The slot openDocument touches neither the document pointer nor the tool slot. -/
theorem openDocument_tools (ext : Ext) (inp : UserInput) (s : MainWindow) :
    (openDocument ext inp s).m_docView = s.m_docView ∧
    (openDocument ext inp s).toolManager = s.toolManager ∧
    (openDocument ext inp s).toolsCreated = s.toolsCreated := by
  obtain ⟨-, -, -, -, -, -, h7, h8, h9⟩ := okToContinue_rest inp s
  by_cases hok : (okToContinue inp s).1 = true
  · by_cases hf : inp.fileName = ""
    · rw [openDocument_no_file ext inp s hok hf]
      exact ⟨h7, h8, h9⟩
    · by_cases hl : (ext.loadFile inp.fileName s.doc).1 = true
      · rw [openDocument_loaded ext inp s hok hf hl]
        obtain ⟨-, -, -, -, -, r6, r7, r8⟩ := rebuildTreeView_rest
          (setCurrentFile inp.fileName
            ((({ (okToContinue inp s).2.log (.getOpenFileName s.m_lastFilePath) with
              m_lastFilePath := ext.absoluteFilePath inp.fileName
              doc := (ext.loadFile inp.fileName s.doc).2 }).log
            (.loadFile inp.fileName (currentDocument s))).log (.showMessage "文件载入成功")))
        rw [r6, r7, r8, (setCurrentFile_rest _ _).2.2.2.2.1, (setCurrentFile_rest _ _).2.2.2.2.2.1,
          (setCurrentFile_rest _ _).2.2.2.2.2.2]
        exact ⟨h7, h8, h9⟩
      · rw [openDocument_failed ext inp s hok hf (by simpa using hl)]
        exact ⟨h7, h8, h9⟩
  · rw [openDocument_declined ext inp s (by simpa using hok)]
    exact ⟨h7, h8, h9⟩

/-- The slot newDocument touches neither the document pointer nor the tool slot. -/
theorem newDocument_tools (ext : Ext) (inp : UserInput) (s : MainWindow) :
    (newDocument ext inp s).m_docView = s.m_docView ∧
    (newDocument ext inp s).toolManager = s.toolManager ∧
    (newDocument ext inp s).toolsCreated = s.toolsCreated := by
  obtain ⟨-, -, -, -, -, -, h7, h8, h9⟩ := okToContinue_rest inp s
  by_cases hok : (okToContinue inp s).1 = true
  · rw [newDocument_proceeds ext inp s hok]
    obtain ⟨-, -, -, -, -, r6, r7, r8⟩ := rebuildTreeView_rest
      (setCurrentFile ""
        (({ (okToContinue inp s).2 with doc := ext.clear s.doc }).log (.clear (currentDocument s))))
    rw [r6, r7, r8, (setCurrentFile_rest _ _).2.2.2.2.1, (setCurrentFile_rest _ _).2.2.2.2.2.1,
      (setCurrentFile_rest _ _).2.2.2.2.2.2]
    exact ⟨h7, h8, h9⟩
  · rw [newDocument_declined ext inp s (by simpa using hok)]
    exact ⟨h7, h8, h9⟩

/-- What one event does to the document pointer, the tool slot and the allocation count. -/
theorem step_tools (ext : Ext) (s : MainWindow) (e : Event) :
    (step ext s e).m_docView = s.m_docView ∧
    (step ext s e).toolManager =
      (match e.toolSwitch with
        | none => s.toolManager
        | some k => s.toolManager.setTool (some ⟨s.toolsCreated, k, s.m_docView⟩)) ∧
    (step ext s e).toolsCreated =
      (match e.toolSwitch with
        | none => s.toolsCreated
        | some _ => s.toolsCreated + 1) := by
  cases e with
  | openDocument inp => exact openDocument_tools ext inp s
  | newDocument inp => exact newDocument_tools ext inp s
  | printDocument inp =>
    by_cases hp : s.m_printer = false <;> by_cases hv : inp.printerValid = true <;>
      simp [step, Event.toolSwitch, printDocument, MainWindow.log, hp, hv]
  | rebuildTreeView =>
    obtain ⟨-, -, -, -, -, r6, r7, r8⟩ := rebuildTreeView_rest s
    exact ⟨r6, r7, r8⟩
  | saveDocument => exact ⟨rfl, rfl, rfl⟩
  | saveAsDocument => exact ⟨rfl, rfl, rfl⟩
  | closeDocument => exact ⟨rfl, rfl, rfl⟩
  | exportDocument => exact ⟨rfl, rfl, rfl⟩
  | setPolygonTool => exact ⟨rfl, rfl, rfl⟩
  | setSelectTool => exact ⟨rfl, rfl, rfl⟩
  | setPubPointTool => exact ⟨rfl, rfl, rfl⟩
  | edit f => exact ⟨rfl, rfl, rfl⟩

/-- One more event at the end of a sequence. -/
theorem run_snoc (ext : Ext) (evs : List Event) (e : Event) :
    run ext (evs ++ [e]) = step ext (run ext evs) e := by
  simp [run, List.foldl_append]

/-- The most recent tool-switch after one more event. -/
theorem lastToolSwitch_snoc (evs : List Event) (e : Event) :
    lastToolSwitch (evs ++ [e]) = (e.toolSwitch).getD (lastToolSwitch evs) := by
  simp [lastToolSwitch, List.foldl_append]

/-- The number of tool-switches after one more event. -/
theorem toolSwitchCount_snoc (evs : List Event) (e : Event) :
    toolSwitchCount (evs ++ [e]) =
      toolSwitchCount evs + if (e.toolSwitch).isSome then 1 else 0 := by
  unfold toolSwitchCount
  rw [List.filter_append, List.length_append]
  by_cases h : (e.toolSwitch).isSome = true <;> simp [List.filter, h]

/-- The tool slot, its destroy log and the document pointer in every reachable state. -/
theorem run_tools (ext : Ext) (evs : List Event) :
    (run ext evs).m_docView = ext.docAddr ∧
    (run ext evs).toolsCreated = toolSwitchCount evs + 1 ∧
    (run ext evs).toolManager.m_currentTool
      = some ⟨toolSwitchCount evs, lastToolSwitch evs, ext.docAddr⟩ ∧
    (run ext evs).toolManager.destroyed.map (fun d => d.addr)
      = List.range (toolSwitchCount evs) := by
  induction evs using List.reverseRecOn with
  | nil => exact ⟨rfl, rfl, rfl, rfl⟩
  | append_singleton evs e ih =>
    obtain ⟨i1, i2, i3, i4⟩ := ih
    obtain ⟨s1, s2, s3⟩ := step_tools ext (run ext evs) e
    rw [run_snoc, lastToolSwitch_snoc, toolSwitchCount_snoc, s1, s2, s3]
    cases hk : e.toolSwitch with
    | none => simpa using ⟨i1, i2, i3, i4⟩
    | some k =>
      simp only [Option.isSome_some, if_true, Option.getD_some, ToolManager.setTool, i1, i2, i3]
      refine ⟨trivial, trivial, trivial, ?_⟩
      simp [List.range_succ, i4]

/-- C4: with the ToolManager as one replace-and-destroy-old slot, in every
state reached from the constructor by tool-switch slots, other slots and
document edits, the slot holds exactly one tool; it is the tool made by the
most recent tool-switch (the constructor's SelectTool if there was none), of
that switch's class; it has not been destroyed; and every tool made before it
has been destroyed exactly once, in the order of creation. -/
theorem exactly_one_active_tool (ext : Ext) (evs : List Event) :
    ∃ t, (run ext evs).toolManager.currentTool = some t ∧
      t.kind = lastToolSwitch evs ∧
      t.addr = toolSwitchCount evs ∧
      (run ext evs).toolsCreated = t.addr + 1 ∧
      t ∉ (run ext evs).toolManager.destroyed ∧
      (run ext evs).toolManager.destroyed.map (fun d => d.addr) = List.range t.addr ∧
      (∀ a, a < (run ext evs).toolsCreated →
        ((run ext evs).toolManager.destroyed.map (fun d => d.addr)).count a
          = if a = t.addr then 0 else 1) := by
  obtain ⟨-, h2, h3, h4⟩ := run_tools ext evs
  refine ⟨⟨toolSwitchCount evs, lastToolSwitch evs, ext.docAddr⟩, h3, rfl, rfl, h2, ?_, h4, ?_⟩
  · intro hmem
    have : toolSwitchCount evs ∈ (run ext evs).toolManager.destroyed.map (fun d => d.addr) :=
      List.mem_map.mpr ⟨_, hmem, rfl⟩
    rw [h4] at this
    simp at this
  · intro a ha
    rw [h4]
    rw [h2] at ha
    by_cases hat : a = toolSwitchCount evs
    · simp only [hat, if_true]
      exact List.count_eq_zero_of_not_mem (by simp)
    · simp only [hat, if_false]
      exact List.count_eq_one_of_mem (List.nodup_range _) (by simp; omega)

/-- C4, exercised: after a polygon switch, a save and a public-point switch the
active tool is the PubPointTool and the first tool was destroyed once. -/
theorem exactly_one_active_tool_witness :
    ∃ t, (run demoExt [.setPolygonTool, .saveDocument, .setPubPointTool]).toolManager.currentTool
        = some t ∧
      t.kind = .PubPointTool ∧
      ((run demoExt [.setPolygonTool, .saveDocument, .setPubPointTool]).toolManager.destroyed.map
        (fun d => d.addr)).count 0 = 1 := by
  obtain ⟨t, h1, h2, h3, -, -, -, h7⟩ :=
    exactly_one_active_tool demoExt [.setPolygonTool, .saveDocument, .setPubPointTool]
  refine ⟨t, h1, h2.trans rfl, ?_⟩
  rw [h7 0 (by decide), h3]
  decide

/-- C7: the constructor installs a SelectTool, and setSelectTool,
setPolygonTool and setPubPointTool install a SelectTool, a PolygonTool and a
PubPointTool; each slot makes exactly one setTool call, with a non-null tool
whose target document is what currentDocument returns, and leaves that pointer
as it was; so in every state reached from the constructor by slots and edits
the active tool's target document is the current document. -/
theorem active_tool_targets_current_document (ext : Ext) (s : MainWindow) (evs : List Event) :
    (MainWindow.new ext).toolManager.currentTool
      = some ⟨0, .SelectTool, currentDocument (MainWindow.new ext)⟩ ∧
    ((setSelectTool s).toolManager.currentTool
        = some ⟨s.toolsCreated, .SelectTool, currentDocument s⟩ ∧
      callsSince s (setSelectTool s)
        = [.setTool (some ⟨s.toolsCreated, .SelectTool, currentDocument s⟩)] ∧
      currentDocument (setSelectTool s) = currentDocument s) ∧
    ((setPolygonTool s).toolManager.currentTool
        = some ⟨s.toolsCreated, .PolygonTool, currentDocument s⟩ ∧
      callsSince s (setPolygonTool s)
        = [.setTool (some ⟨s.toolsCreated, .PolygonTool, currentDocument s⟩)] ∧
      currentDocument (setPolygonTool s) = currentDocument s) ∧
    ((setPubPointTool s).toolManager.currentTool
        = some ⟨s.toolsCreated, .PubPointTool, currentDocument s⟩ ∧
      callsSince s (setPubPointTool s)
        = [.setTool (some ⟨s.toolsCreated, .PubPointTool, currentDocument s⟩)] ∧
      currentDocument (setPubPointTool s) = currentDocument s) ∧
    (∃ t, (run ext evs).toolManager.currentTool = some t ∧
      t.m_doc = currentDocument (run ext evs)) := by
  refine ⟨rfl, ⟨rfl, callsSince_append s _ _ rfl, rfl⟩, ⟨rfl, callsSince_append s _ _ rfl, rfl⟩,
    ⟨rfl, callsSince_append s _ _ rfl, rfl⟩, ?_⟩
  obtain ⟨h1, -, h3, -⟩ := run_tools ext evs
  exact ⟨_, h3, h1.symm⟩

end IndoorMapEditor
